import Mathlib

/-!
Shallow embedding of `qdl.c` (Qualcomm EDL flash tool, device-acquisition and
flash-orchestration layer).

The C program is single-threaded and strictly sequential.  Every system-call
outcome the code branches on (XML parse results, loader return codes, directory
entries, attribute-file reads, `open`/`tcgetattr`/`tcsetattr` results, the
protocol-engine return codes) is supplied through an explicit environment, and
each function is translated into a Lean function from that environment to its
C return value together with a trace of observable events (stderr prints,
loader invocations, device enumeration, tty open, protocol-engine runs,
termios restoration, handle close).  `err`/`errx` terminate the process and are
modelled as an `Exit` outcome carrying the exit code and message.
-/

namespace Qdl

/-- errno value used by the code (`-EINVAL` return). -/
def EINVAL : Int := 22

/-- errno value used as the initial `found` state of the scan (`-ENOENT`). -/
def ENOENT : Int := 2

/-- `PATH_MAX` on the target platform: size of the `path` buffer in `tty_open`. -/
def PATH_MAX : Nat := 4096

/-- File-type codes of the anonymous `enum` in qdl.c. -/
def QDL_FILE_UNKNOWN : Int := 0

def QDL_FILE_PATCH : Int := 1

def QDL_FILE_PROGRAM : Int := 2

def QDL_FILE_CONTENTS : Int := 3

/-- A process termination through `err`/`errx`: exit code and diagnostic. -/
structure Exit where
  code : Nat
  msg : String
deriving DecidableEq, Repr

/-- Saved/active serial line configuration (`struct termios`), abstracted to
its mode fields; the orchestration layer only snapshots and re-applies it. -/
structure Termios where
  c_iflag : Nat
  c_oflag : Nat
  c_cflag : Nat
  c_lflag : Nat
deriving DecidableEq, Repr

/-- Observable events of a run, in program order. -/
inductive Event
  | errPrint (msg : String)
  | classify (file : String) (ty : Int)
  | patchLoad (file : String) (ret : Int)
  | programLoad (file : String) (ret : Int)
  | scanDir
  | printNotice
  | sleepSec (n : Nat)
  | openDev (path : String)
  | sahara (ret : Int)
  | firehose (ret : Int)
  | restoreTios (saved : Termios) (ok : Bool)
  | warnMsg (msg : String)
  | closeFd (fd : Int)
deriving DecidableEq, Repr

/-- Terminal outcome of `main`: an `err`/`errx` exit, a normal `return`, or
an unbounded block inside the device-wait loop (the supplied finite trace of
scan rounds was exhausted with the device still absent). -/
inductive Outcome
  | exited (code : Nat) (msg : String)
  | returned (code : Nat)
  | waiting
deriving DecidableEq, Repr

/-! ## detect_type -/

/-- `detect_type`: the XML parse result is supplied as `doc`, `none` when
`xmlReadFile` fails and otherwise the root element's tag (the only part of
the document the C code inspects, via `xmlDocGetRootElement`/`root->name`).
Returns the C `int` result paired with the trace of stderr prints. -/
def detect_type (xml_file : String) (doc : Option String) : Int × List Event :=
  match doc with
  | none => (-EINVAL, [Event.errPrint ("[PATCH] failed to parse " ++ xml_file)])
  | some root =>
    (if root = "patches" then QDL_FILE_PATCH
     else if root = "data" then QDL_FILE_PROGRAM
     else if root = "contents" then QDL_FILE_CONTENTS
     else QDL_FILE_UNKNOWN, [])

/-! ## readat -/

/-- Outcome of `openat`+`read` on an attribute file: `openat` fails (POSIX
guarantees a negative descriptor), `read` fails, or the file's bytes. -/
inductive FileRes
  | noOpen
  | readErr
  | bytes (content : List Char)
deriving DecidableEq, Repr

/-- The buffer contents `readat` leaves in `buf`: `read` fills at most
`len - 1` bytes, `buf[n] = 0`, then `buf[strcspn(buf, "\n")] = 0` cuts the
string at the first newline. -/
def cTrunc (content : List Char) (len : Nat) : String :=
  String.mk ((content.take (len - 1)).takeWhile (fun c => c ≠ '\n'))

/-- `readat dir name buf len`: returns the C return value (0 on success, the
negative `openat` result, or `-EINVAL` on a failed `read`) together with the
resulting buffer contents (`none` when nothing valid was stored). -/
def readat (f : FileRes) (len : Nat) : Int × Option String :=
  match f with
  | .noOpen => (-1, none)
  | .readErr => (-EINVAL, none)
  | .bytes content => (0, some (cTrunc content len))

/-! ## find_qdl_tty -/

/-- One `/sys/class/tty` directory entry together with the system-call
outcomes for it: whether `openat(tty, d_name, O_DIRECTORY)` succeeds and the
results of reading the two sibling USB id attribute files. -/
structure DirEnt where
  d_name : String
  openatOk : Bool
  idVendor : FileRes
  idProduct : FileRes
deriving DecidableEq, Repr

/-- `snprintf(dev_name, dev_name_len, ...)`: at most `dev_name_len - 1`
characters are stored. -/
def snprintfStr (s : String) (n : Nat) : String :=
  String.mk (s.data.take (n - 1))

/-- The body of the `readdir` loop of `find_qdl_tty` for one entry, acting on
the `(found, dev_name)` state.  Entries not starting with `ttyUSB`, entries
whose directory cannot be opened, entries whose id files cannot be read, and
entries whose ids mismatch all leave the state unchanged (`continue` /
`goto close_fd`); a match stores `found = 0` and the device node path. -/
def scan_entry (dev_name_len : Nat) (st : Int × Option String) (de : DirEnt) :
    Int × Option String :=
  if ¬ ("ttyUSB".data.isPrefixOf de.d_name.data) then st
  else if ¬ de.openatOk then st
  else
    let rv := readat de.idVendor 5
    if rv.1 < 0 then st
    else
      let rp := readat de.idProduct 5
      if rp.1 < 0 then st
      else if rv.2 ≠ some "05c6" ∨ rp.2 ≠ some "9008" then st
      else (0, some (snprintfStr ("/dev/" ++ de.d_name) dev_name_len))

/-- Environment of one `find_qdl_tty` call: whether `open("/sys/class/tty")`
and `fdopendir` succeed, and the directory entries `readdir` yields, in
enumeration order. -/
structure ScanEnv where
  ttyOpenOk : Bool
  fdopendirOk : Bool
  entries : List DirEnt
deriving DecidableEq, Repr

/-- `find_qdl_tty dev_name dev_name_len`: fatal `err(1, ...)` when the base
directory cannot be opened, otherwise the fold of the scan loop over all
entries starting from `(-ENOENT, ⟨uninitialised⟩)`. -/
def find_qdl_tty (env : ScanEnv) (dev_name_len : Nat) :
    Except Exit (Int × Option String) :=
  if ¬ env.ttyOpenOk then .error ⟨1, "failed to open /sys/class/tty"⟩
  else if ¬ env.fdopendirOk then .error ⟨1, "failed to opendir /sys/class/tty"⟩
  else .ok (env.entries.foldl (scan_entry dev_name_len) (-ENOENT, none))

/-! ## tty_open -/

/-- Environment of one iteration of the `retry:` loop of `tty_open`: the scan
environment plus the outcomes of `open(path, O_RDWR | O_NOCTTY | O_EXCL)`
(the returned descriptor, negative on failure), `tcgetattr` (with the
snapshotted line configuration) and `tcsetattr`. -/
structure RoundEnv where
  scan : ScanEnv
  openRet : Int
  tcgetattrOk : Bool
  savedTios : Termios
  tcsetattrOk : Bool
deriving DecidableEq, Repr

/-- Result of `tty_open`: a fatal exit, an acquired transport (descriptor,
device path, saved pre-acquisition configuration), or still waiting in the
retry loop when the supplied finite list of rounds is exhausted. -/
inductive TtyRes
  | exited (e : Exit)
  | acquired (fd : Int) (path : String) (saved : Termios)
  | waiting
deriving DecidableEq, Repr

/-- `tty_open(&old)`: scan for the device; on `NotFound` print the wait
notice, sleep one second and retry; once found, open the node exclusively,
snapshot the termios, install the fixed configuration; every failure after a
successful scan is a fatal `err(1, ...)`. -/
def tty_open : List RoundEnv → TtyRes × List Event
  | [] => (.waiting, [])
  | r :: rest =>
    match find_qdl_tty r.scan PATH_MAX with
    | .error e => (.exited e, [Event.scanDir])
    | .ok fd_dev =>
      if fd_dev.1 < 0 then
        let next := tty_open rest
        (next.1, Event.scanDir :: Event.printNotice :: Event.sleepSec 1 :: next.2)
      else
        let path := fd_dev.2.getD ""
        if r.openRet < 0 then
          (.exited ⟨1, "unable to open " ++ path⟩, [Event.scanDir, Event.openDev path])
        else if ¬ r.tcgetattrOk then
          (.exited ⟨1, "unable to retrieve " ++ path ++ " tios"⟩,
            [Event.scanDir, Event.openDev path])
        else if ¬ r.tcsetattrOk then
          (.exited ⟨1, "unable to update " ++ path ++ " tios"⟩,
            [Event.scanDir, Event.openDev path])
        else (.acquired r.openRet path r.savedTios, [Event.scanDir, Event.openDev path])

/-! ## main -/

/-- One descriptor-file argument (`argv[i]`, `i ≥ 2`) with the environment
outcomes attached to it: the XML parse result (root tag, `none` on parse
failure) and the return codes `patch_load` / `program_load` would yield for
this file. -/
structure FileArg where
  name : String
  doc : Option String
  patch_load_ret : Int
  program_load_ret : Int
deriving DecidableEq, Repr

/-- The classify-and-load `for` loop of `main`: for each argument in order,
`detect_type`, then `errx(1, ...)` on parse failure or `QDL_FILE_UNKNOWN`;
otherwise dispatch to `patch_load` / `program_load` (fatal `errx` on a
negative return) or `errx(1, "... type not yet supported")` in the `default`
branch (`QDL_FILE_CONTENTS`). -/
def load_files : List FileArg → Except Exit Unit × List Event
  | [] => (.ok (), [])
  | f :: rest =>
    let dt := detect_type f.name f.doc
    let tr0 := dt.2 ++ [Event.classify f.name dt.1]
    if dt.1 < 0 ∨ dt.1 = QDL_FILE_UNKNOWN then
      (.error ⟨1, "failed to detect file type of " ++ f.name ++ "\n"⟩, tr0)
    else if dt.1 = QDL_FILE_PATCH then
      if f.patch_load_ret < 0 then
        (.error ⟨1, "patch_load " ++ f.name ++ " failed"⟩,
          tr0 ++ [Event.patchLoad f.name f.patch_load_ret])
      else
        let r := load_files rest
        (r.1, tr0 ++ [Event.patchLoad f.name f.patch_load_ret] ++ r.2)
    else if dt.1 = QDL_FILE_PROGRAM then
      if f.program_load_ret < 0 then
        (.error ⟨1, "program_load " ++ f.name ++ " failed"⟩,
          tr0 ++ [Event.programLoad f.name f.program_load_ret])
      else
        let r := load_files rest
        (r.1, tr0 ++ [Event.programLoad f.name f.program_load_ret] ++ r.2)
    else
      (.error ⟨1, f.name ++ " type not yet supported"⟩, tr0)

/-- Environment of one `main` run (after the `--debug`/usage argv handling):
the descriptor-file arguments with their outcomes, the firmware image path,
the `tty_open` rounds, the protocol-engine return codes and the result of the
restoring `tcsetattr`. -/
structure MainEnv where
  prog_mbn : String
  args : List FileArg
  rounds : List RoundEnv
  sahara_ret : Int
  firehose_ret : Int
  restore_tcsetattr_ok : Bool
deriving DecidableEq, Repr

/-- `main` from the classify/load loop on: load all descriptor files (fatal
on any failure, before any device access), acquire the transport via
`tty_open`, run `sahara_run`; on its failure `goto out`, otherwise run
`firehose_run`; at `out:` re-apply the saved termios (warning only on
failure), close the descriptor, `return 0`. -/
def main_run (env : MainEnv) : Outcome × List Event :=
  match load_files env.args with
  | (.error e, tr) => (.exited e.code e.msg, tr)
  | (.ok _, tr) =>
    match tty_open env.rounds with
    | (.exited e, tr2) => (.exited e.code e.msg, tr ++ tr2)
    | (.waiting, tr2) => (.waiting, tr ++ tr2)
    | (.acquired fd _path saved, tr2) =>
      if fd < 0 then (.exited 1 "failed to open QDL tty", tr ++ tr2)
      else
        let tr3 := if env.sahara_ret < 0 then [Event.sahara env.sahara_ret]
                   else [Event.sahara env.sahara_ret, Event.firehose env.firehose_ret]
        let tr4 := if env.restore_tcsetattr_ok then [Event.restoreTios saved true]
                   else [Event.restoreTios saved false,
                         Event.warnMsg "unable to restore tios of ttyUSB1"]
        (.returned 0, tr ++ tr2 ++ tr3 ++ tr4 ++ [Event.closeFd fd])

/-- `main` with the `if (fd < 0) err(1, "failed to open QDL tty")` guard after
`tty_open` removed: used to state that this error branch is unreachable
(`tty_open` never hands back a negative descriptor). -/
def main_run_noguard (env : MainEnv) : Outcome × List Event :=
  match load_files env.args with
  | (.error e, tr) => (.exited e.code e.msg, tr)
  | (.ok _, tr) =>
    match tty_open env.rounds with
    | (.exited e, tr2) => (.exited e.code e.msg, tr ++ tr2)
    | (.waiting, tr2) => (.waiting, tr ++ tr2)
    | (.acquired fd _path saved, tr2) =>
      let tr3 := if env.sahara_ret < 0 then [Event.sahara env.sahara_ret]
                 else [Event.sahara env.sahara_ret, Event.firehose env.firehose_ret]
      let tr4 := if env.restore_tcsetattr_ok then [Event.restoreTios saved true]
                 else [Event.restoreTios saved false,
                       Event.warnMsg "unable to restore tios of ttyUSB1"]
      (.returned 0, tr ++ tr2 ++ tr3 ++ tr4 ++ [Event.closeFd fd])

/-! ## Derived predicates used to state the properties -/

/-- The scan loop's full acceptance test for one entry, as a Boolean:
`ttyUSB` name prefix, entry directory opens, both id files read, both ids
equal the fixed pair. -/
def entryMatches (de : DirEnt) : Bool :=
  ("ttyUSB".data.isPrefixOf de.d_name.data) && de.openatOk
    && !(decide ((readat de.idVendor 5).1 < 0))
    && !(decide ((readat de.idProduct 5).1 < 0))
    && (decide ((readat de.idVendor 5).2 = some "05c6"))
    && (decide ((readat de.idProduct 5).2 = some "9008"))

/-- The last entry of the list accepted by the scan test, if any: the
spec-side description of the scan's "last match wins" result. -/
def lastMatch : List DirEnt → Option DirEnt
  | [] => none
  | de :: rest =>
    match lastMatch rest with
    | some x => some x
    | none => if entryMatches de then some de else none

/-- Spec-side reading of an id attribute file as a short newline-terminated
token: at most four characters, cut at the first newline; `none` when the
file cannot be opened or read. -/
def readToken (f : FileRes) : Option String :=
  match f with
  | .bytes content => some (String.mk ((content.take 4).takeWhile (fun c => c ≠ '\n')))
  | _ => none

/-- Spec-side acceptance of a device candidate: name prefix matches, its
directory resolves, and both id tokens are exactly the expected pair, by
plain string equality. -/
def acceptedSpec (de : DirEnt) : Prop :=
  "ttyUSB".data.isPrefixOf de.d_name.data = true ∧ de.openatOk = true ∧
    readToken de.idVendor = some "05c6" ∧ readToken de.idProduct = some "9008"

/-- One `tty_open` round whose scan succeeds but finds no device
(`find_qdl_tty` returns a negative `found`). -/
def scanNotFound (r : RoundEnv) : Prop :=
  ∃ p : Int × Option String, find_qdl_tty r.scan PATH_MAX = .ok p ∧ p.1 < 0

/-- A descriptor-file argument on which the classify/load loop aborts:
parse failure, unknown root, or a failing loader for its kind. -/
def fileFails (f : FileArg) : Prop :=
  (detect_type f.name f.doc).1 < 0 ∨ (detect_type f.name f.doc).1 = QDL_FILE_UNKNOWN
    ∨ ((detect_type f.name f.doc).1 = QDL_FILE_PATCH ∧ f.patch_load_ret < 0)
    ∨ ((detect_type f.name f.doc).1 = QDL_FILE_PROGRAM ∧ f.program_load_ret < 0)

/-- Event is a termios restoration. -/
def isRestore : Event → Bool
  | .restoreTios _ _ => true
  | _ => false

/-- Event is the transport-handle close. -/
def isClose : Event → Bool
  | .closeFd _ => true
  | _ => false

/-- Event is an attempt to open the enumeration base directory. -/
def isScanDir : Event → Bool
  | .scanDir => true
  | _ => false

/-- Event is an attempt to open a device node. -/
def isOpenDev : Event → Bool
  | .openDev _ => true
  | _ => false

/-- Event is a command-engine (`firehose_run`) invocation. -/
def isFirehose : Event → Bool
  | .firehose _ => true
  | _ => false

/-- Event is a loader (`patch_load`/`program_load`) invocation. -/
def isLoad : Event → Bool
  | .patchLoad _ _ => true
  | .programLoad _ _ => true
  | _ => false

/-- Events the classify/load loop can emit. -/
def isLoadPhase : Event → Bool
  | .errPrint _ => true
  | .classify _ _ => true
  | .patchLoad _ _ => true
  | .programLoad _ _ => true
  | _ => false

/-- Events `tty_open` can emit. -/
def isTtyPhase : Event → Bool
  | .scanDir => true
  | .printNotice => true
  | .sleepSec _ => true
  | .openDev _ => true
  | _ => false

/-! ## Scan lemmas -/

/-- One scan-loop step either records the current entry (when it passes the
full acceptance test) or leaves the `(found, dev_name)` state untouched. -/
theorem scan_entry_eq (n : Nat) (st : Int × Option String) (de : DirEnt) :
    scan_entry n st de =
      if entryMatches de then (0, some (snprintfStr ("/dev/" ++ de.d_name) n)) else st := by
  unfold scan_entry entryMatches
  by_cases h1 : "ttyUSB".data.isPrefixOf de.d_name.data
  · by_cases h2 : de.openatOk
    · by_cases h3 : (readat de.idVendor 5).1 < 0
      · simp [h1, h2, h3]
      · by_cases h4 : (readat de.idProduct 5).1 < 0
        · simp [h1, h2, h3, h4]
        · by_cases h5 : (readat de.idVendor 5).2 = some "05c6"
          · by_cases h6 : (readat de.idProduct 5).2 = some "9008"
            · simp [h1, h2, h3, h4, h5, h6]
            · simp [h1, h2, h3, h4, h5, h6]
          · simp [h1, h2, h3, h4, h5]
    · simp [h1, h2]
  · simp [h1]

theorem lastMatch_append (l1 l2 : List DirEnt) :
    lastMatch (l1 ++ l2) =
      match lastMatch l2 with
      | some x => some x
      | none => lastMatch l1 := by
  induction l1 with
  | nil =>
    simp only [List.nil_append]
    cases lastMatch l2 <;> rfl
  | cons de rest ih =>
    simp only [List.cons_append, lastMatch, List.append_eq, ih]
    cases lastMatch l2 <;> cases lastMatch rest <;> rfl

/-- The scan loop over the whole directory computes the last matching
candidate: later entries that fail to match leave a recorded match intact,
and a later match overwrites an earlier one. -/
theorem scan_fold_eq (n : Nat) (entries : List DirEnt) (st : Int × Option String) :
    entries.foldl (scan_entry n) st =
      match lastMatch entries with
      | some de => (0, some (snprintfStr ("/dev/" ++ de.d_name) n))
      | none => st := by
  induction entries generalizing st with
  | nil => rfl
  | cons de rest ih =>
    rw [List.foldl_cons, ih]
    simp only [lastMatch]
    cases lastMatch rest with
    | some x => rfl
    | none =>
      rw [scan_entry_eq]
      by_cases h : entryMatches de
      · simp [h]
      · simp [h]

/-- The C acceptance test coincides with the spec-side candidate acceptance. -/
theorem entryMatches_iff (de : DirEnt) : entryMatches de = true ↔ acceptedSpec de := by
  obtain ⟨name, oo, iv, ip⟩ := de
  cases iv <;> cases ip <;>
    simp [entryMatches, acceptedSpec, readToken, readat, cTrunc, EINVAL, and_assoc]

instance (de : DirEnt) : Decidable (acceptedSpec de) :=
  decidable_of_iff _ (entryMatches_iff de)

/-- C3: the device scan always traverses the entire enumeration directory;
with several matching candidates the returned device-node path is that of the
last matching candidate in enumeration order, and candidates after a match
that fail to resolve, read or compare do not unset the recorded result. -/
theorem claim_C3 (env : ScanEnv) (n : Nat)
    (hdir : env.ttyOpenOk = true) (hfd : env.fdopendirOk = true) :
    find_qdl_tty env n =
      .ok (match lastMatch env.entries with
           | some de => (0, some (snprintfStr ("/dev/" ++ de.d_name) n))
           | none => (-ENOENT, none)) ∧
    ∀ pre de post, env.entries = pre ++ de :: post →
      entryMatches de = true → lastMatch post = none →
      find_qdl_tty env n = .ok (0, some (snprintfStr ("/dev/" ++ de.d_name) n)) := by
  have hmain : find_qdl_tty env n =
      .ok (match lastMatch env.entries with
           | some de => (0, some (snprintfStr ("/dev/" ++ de.d_name) n))
           | none => (-ENOENT, none)) := by
    unfold find_qdl_tty
    rw [if_neg (by simp [hdir]), if_neg (by simp [hfd]), scan_fold_eq]
  refine ⟨hmain, ?_⟩
  intro pre de post hsplit hm hpost
  have hlast : lastMatch env.entries = some de := by
    rw [hsplit, lastMatch_append]
    simp only [lastMatch, hpost, hm, if_true]
  rw [hmain, hlast]

theorem claim_C3_witness :
    find_qdl_tty ⟨true, true,
        [⟨"ttyUSB0", true, .bytes "05c6\n".data, .bytes "9008\n".data⟩,
         ⟨"ttyUSB1", true, .bytes "05c6\n".data, .bytes "9008\n".data⟩,
         ⟨"ttyUSB2", true, .readErr, .bytes "9008\n".data⟩]⟩ 4096 =
      .ok (0, some (snprintfStr ("/dev/" ++ "ttyUSB1") 4096)) :=
  (claim_C3 _ 4096 rfl rfl).2
    [⟨"ttyUSB0", true, .bytes "05c6\n".data, .bytes "9008\n".data⟩]
    ⟨"ttyUSB1", true, .bytes "05c6\n".data, .bytes "9008\n".data⟩
    [⟨"ttyUSB2", true, .readErr, .bytes "9008\n".data⟩] rfl (by decide) (by decide)

/-- C4: a candidate is accepted iff both id attribute files, read as short
newline-terminated tokens, are exactly `05c6`/`9008` by plain string
equality; a candidate failing either comparison, or failing to resolve or
read, is skipped with the scan state unchanged (no abort). -/
theorem claim_C4 (n : Nat) (st : Int × Option String) (de : DirEnt) :
    (acceptedSpec de →
      scan_entry n st de = (0, some (snprintfStr ("/dev/" ++ de.d_name) n))) ∧
    (¬ acceptedSpec de → scan_entry n st de = st) := by
  constructor
  · intro h
    rw [scan_entry_eq, if_pos ((entryMatches_iff de).mpr h)]
  · intro h
    rw [scan_entry_eq, if_neg (fun hm => h ((entryMatches_iff de).mp hm))]

theorem claim_C4_witness :
    scan_entry 4096 (-2, none) ⟨"ttyUSB0", true, .bytes "05c6\n".data, .bytes "9008\n".data⟩ =
      (0, some (snprintfStr ("/dev/" ++ "ttyUSB0") 4096)) ∧
    scan_entry 4096 (-2, none) ⟨"ttyUSB3", true, .bytes "05c7\n".data, .bytes "9008\n".data⟩ =
      (-2, none) :=
  ⟨(claim_C4 4096 (-2, none) _).1 (by decide),
   (claim_C4 4096 (-2, none) _).2 (by decide)⟩

/-! ## Classification lemmas -/

/-- C5: classification inspects only the root element's tag and maps
`patches` to Patch, `data` to Program, `contents` to Contents, any other tag
to Unknown; a parse failure yields a negative error value — never a kind —
and an error message naming the file. -/
theorem claim_C5 (file : String) :
    (detect_type file (some "patches")).1 = QDL_FILE_PATCH ∧
    (detect_type file (some "data")).1 = QDL_FILE_PROGRAM ∧
    (detect_type file (some "contents")).1 = QDL_FILE_CONTENTS ∧
    (∀ root, root ≠ "patches" → root ≠ "data" → root ≠ "contents" →
      (detect_type file (some root)).1 = QDL_FILE_UNKNOWN) ∧
    ((detect_type file none).1 < 0 ∧
      (detect_type file none).2 = [Event.errPrint ("[PATCH] failed to parse " ++ file)]) ∧
    (∀ doc, (detect_type file doc).1 < 0 → doc = none) := by
  refine ⟨rfl, rfl, rfl, ?_, ⟨?_, rfl⟩, ?_⟩
  · intro root h1 h2 h3
    simp [detect_type, h1, h2, h3]
  · norm_num [detect_type, EINVAL]
  · intro doc h
    cases doc with
    | none => rfl
    | some root =>
      exfalso
      revert h
      simp only [detect_type]
      split_ifs <;> decide

theorem claim_C5_witness :
    (detect_type "x.xml" (some "firehose")).1 = QDL_FILE_UNKNOWN :=
  (claim_C5 "x.xml").2.2.2.1 "firehose" (by decide) (by decide) (by decide)

/-! ## Classify/load loop lemmas -/

theorem load_files_cons_unknown (f : FileArg) (rest : List FileArg)
    (hdet : (detect_type f.name f.doc).1 < 0 ∨
      (detect_type f.name f.doc).1 = QDL_FILE_UNKNOWN) :
    load_files (f :: rest) =
      (.error ⟨1, "failed to detect file type of " ++ f.name ++ "\n"⟩,
        (detect_type f.name f.doc).2 ++
          [Event.classify f.name (detect_type f.name f.doc).1]) := by
  simp only [load_files]
  rw [if_pos hdet]

theorem load_files_cons_contents (f : FileArg) (rest : List FileArg)
    (hdet : (detect_type f.name f.doc).1 = QDL_FILE_CONTENTS) :
    load_files (f :: rest) =
      (.error ⟨1, f.name ++ " type not yet supported"⟩,
        (detect_type f.name f.doc).2 ++
          [Event.classify f.name QDL_FILE_CONTENTS]) := by
  simp only [load_files, hdet]
  norm_num [QDL_FILE_UNKNOWN, QDL_FILE_PATCH, QDL_FILE_PROGRAM, QDL_FILE_CONTENTS]

/-- Every event emitted while classifying one file is a load-phase event. -/
theorem detect_type_loadPhase (file : String) (doc : Option String) :
    (detect_type file doc).2.all isLoadPhase = true := by
  cases doc <;> simp [detect_type, isLoadPhase]

/-- Classifying one file never invokes a loader. -/
theorem detect_type_no_load (file : String) (doc : Option String) :
    (detect_type file doc).2.countP isLoad = 0 := by
  cases doc <;> simp [detect_type, isLoad]

/-- Every event emitted by the classify/load loop is a load-phase event:
the loop performs no device enumeration, no transport open, no protocol
traffic, no restoration. -/
theorem load_files_loadPhase (args : List FileArg) :
    (load_files args).2.all isLoadPhase = true := by
  induction args with
  | nil => rfl
  | cons f rest ih =>
    simp only [load_files]
    split_ifs <;>
      simp [List.all_append, detect_type_loadPhase, isLoadPhase, ih]

/-- Transfer: a list of events all in phase `q` contains none satisfying a
predicate that is false on all of phase `q`. -/
theorem countP_eq_zero_of_all {l : List Event} {q p : Event → Bool}
    (hall : l.all q = true) (h : ∀ e, q e = true → p e = false) :
    l.countP p = 0 := by
  rw [List.countP_eq_zero]
  intro a ha
  simp [h a (List.all_eq_true.mp hall a ha)]

/-- The two classification diagnostics differ on every file name (their
lengths always differ by eight). -/
theorem contents_msg_ne (name : String) :
    name ++ " type not yet supported" ≠
      "failed to detect file type of " ++ name ++ "\n" := by
  intro h
  have h2 := congrArg String.length h
  rw [String.length_append, String.length_append, String.length_append] at h2
  have e1 : (" type not yet supported" : String).length = 23 := rfl
  have e2 : ("failed to detect file type of " : String).length = 30 := rfl
  have e3 : ("\n" : String).length = 1 := rfl
  rw [e1, e2, e3] at h2
  omega

/-- C9: a descriptor file classified as Contents aborts the run with the
distinct "not yet supported" diagnostic naming the file; an Unknown or
unparseable file aborts with the "failed to detect file type" diagnostic;
the two messages always differ, and in neither case is any loader invoked
(the file is neither ignored nor loaded). -/
theorem claim_C9 (f : FileArg) (post : List FileArg) (prog : String)
    (rounds : List RoundEnv) (sr fr : Int) (rok : Bool) :
    ((detect_type f.name f.doc).1 = QDL_FILE_CONTENTS →
      (main_run ⟨prog, f :: post, rounds, sr, fr, rok⟩).1 =
          .exited 1 (f.name ++ " type not yet supported") ∧
        (main_run ⟨prog, f :: post, rounds, sr, fr, rok⟩).2.countP isLoad = 0) ∧
    ((detect_type f.name f.doc).1 < 0 ∨
        (detect_type f.name f.doc).1 = QDL_FILE_UNKNOWN →
      (main_run ⟨prog, f :: post, rounds, sr, fr, rok⟩).1 =
          .exited 1 ("failed to detect file type of " ++ f.name ++ "\n") ∧
        (main_run ⟨prog, f :: post, rounds, sr, fr, rok⟩).2.countP isLoad = 0) ∧
    f.name ++ " type not yet supported" ≠
      "failed to detect file type of " ++ f.name ++ "\n" := by
  refine ⟨?_, ?_, contents_msg_ne f.name⟩
  · intro hdet
    have hl := load_files_cons_contents f post hdet
    constructor
    · simp [main_run, hl]
    · simp [main_run, hl, List.countP_append, List.countP_cons,
        detect_type_no_load, isLoad]
  · intro hdet
    have hl := load_files_cons_unknown f post hdet
    constructor
    · simp [main_run, hl]
    · simp [main_run, hl, List.countP_append, List.countP_cons,
        detect_type_no_load, isLoad]

theorem claim_C9_witness :
    (main_run ⟨"prog.mbn", [⟨"c.xml", some "contents", 0, 0⟩], [], 0, 0, true⟩).1 =
        .exited 1 ("c.xml" ++ " type not yet supported") ∧
      (main_run ⟨"prog.mbn", [⟨"c.xml", some "contents", 0, 0⟩], [], 0, 0,
          true⟩).2.countP isLoad = 0 :=
  (claim_C9 ⟨"c.xml", some "contents", 0, 0⟩ [] "prog.mbn" [] 0 0 true).1 (by decide)

/-! ## Transport acquisition lemmas -/

/-- Unfolding of one `tty_open` round whose scan exits fatally. -/
theorem tty_open_cons_err (r : RoundEnv) (rest : List RoundEnv) (e : Exit)
    (hf : find_qdl_tty r.scan PATH_MAX = .error e) :
    tty_open (r :: rest) = (.exited e, [Event.scanDir]) := by
  simp only [tty_open, hf]

/-- Unfolding of one `tty_open` round whose scan completes. -/
theorem tty_open_cons_ok (r : RoundEnv) (rest : List RoundEnv) (p : Int × Option String)
    (hf : find_qdl_tty r.scan PATH_MAX = .ok p) :
    tty_open (r :: rest) =
      if p.1 < 0 then
        ((tty_open rest).1,
          Event.scanDir :: Event.printNotice :: Event.sleepSec 1 :: (tty_open rest).2)
      else if r.openRet < 0 then
        (.exited ⟨1, "unable to open " ++ p.2.getD ""⟩,
          [Event.scanDir, Event.openDev (p.2.getD "")])
      else if ¬ r.tcgetattrOk then
        (.exited ⟨1, "unable to retrieve " ++ p.2.getD "" ++ " tios"⟩,
          [Event.scanDir, Event.openDev (p.2.getD "")])
      else if ¬ r.tcsetattrOk then
        (.exited ⟨1, "unable to update " ++ p.2.getD "" ++ " tios"⟩,
          [Event.scanDir, Event.openDev (p.2.getD "")])
      else (.acquired r.openRet (p.2.getD "") r.savedTios,
        [Event.scanDir, Event.openDev (p.2.getD "")]) := by
  simp only [tty_open, hf]

/-- An acquired transport always carries a non-negative descriptor: every
negative `open` result inside `tty_open` is a fatal exit, never a return. -/
theorem tty_open_acquired_nonneg (rounds : List RoundEnv) (fd : Int) (path : String)
    (saved : Termios) (h : (tty_open rounds).1 = .acquired fd path saved) : 0 ≤ fd := by
  induction rounds with
  | nil => simp [tty_open] at h
  | cons r rest ih =>
    cases hf : find_qdl_tty r.scan PATH_MAX with
    | error e => rw [tty_open_cons_err r rest e hf] at h; simp at h
    | ok p =>
      rw [tty_open_cons_ok r rest p hf] at h
      by_cases h1 : p.1 < 0
      · rw [if_pos h1] at h
        exact ih h
      · rw [if_neg h1] at h
        by_cases h2 : r.openRet < 0
        · rw [if_pos h2] at h; simp at h
        · rw [if_neg h2] at h
          by_cases h3 : r.tcgetattrOk
          · by_cases h4 : r.tcsetattrOk
            · rw [if_neg (by simp [h3]), if_neg (by simp [h4])] at h
              simp only [TtyRes.acquired.injEq] at h
              obtain ⟨h5, -, -⟩ := h
              omega
            · rw [if_neg (by simp [h3]), if_pos (by simp [h4])] at h
              simp at h
          · rw [if_pos (by simp [h3])] at h
            simp at h

/-- Every event `tty_open` emits is a locate/acquire-phase event: no loader
call, no protocol run, no restoration, no close. -/
theorem tty_open_ttyPhase (rounds : List RoundEnv) :
    (tty_open rounds).2.all isTtyPhase = true := by
  induction rounds with
  | nil => rfl
  | cons r rest ih =>
    cases hf : find_qdl_tty r.scan PATH_MAX with
    | error e => rw [tty_open_cons_err r rest e hf]; simp [isTtyPhase]
    | ok p =>
      rw [tty_open_cons_ok r rest p hf]
      split_ifs <;> simp [isTtyPhase, ih]

/-- C8: a scan that finds no matching candidate is never fatal: the round
prints the progress notice, sleeps the fixed one-second interval and retries,
and a run whose every round comes up empty stays waiting forever; the
acquisition step returns an acquired transport only once some round's scan
actually found a device; by contrast, failure to open the enumeration base
directory exits the process with status 1. -/
theorem claim_C8 :
    (∀ (r : RoundEnv) (rest : List RoundEnv), scanNotFound r →
      tty_open (r :: rest) =
        ((tty_open rest).1,
          Event.scanDir :: Event.printNotice :: Event.sleepSec 1 :: (tty_open rest).2)) ∧
    (∀ rounds : List RoundEnv, (∀ r ∈ rounds, scanNotFound r) →
      (tty_open rounds).1 = .waiting) ∧
    (∀ rounds fd path saved, (tty_open rounds).1 = TtyRes.acquired fd path saved →
      ∃ r ∈ rounds, ∃ p : Int × Option String,
        find_qdl_tty r.scan PATH_MAX = .ok p ∧ 0 ≤ p.1) ∧
    (∀ (r : RoundEnv) (rest : List RoundEnv), r.scan.ttyOpenOk = false →
      tty_open (r :: rest) =
        (.exited ⟨1, "failed to open /sys/class/tty"⟩, [Event.scanDir])) := by
  have hstep : ∀ (r : RoundEnv) (rest : List RoundEnv), scanNotFound r →
      tty_open (r :: rest) =
        ((tty_open rest).1,
          Event.scanDir :: Event.printNotice :: Event.sleepSec 1 :: (tty_open rest).2) := by
    intro r rest hnf
    obtain ⟨p, hp, hneg⟩ := hnf
    rw [tty_open_cons_ok r rest p hp, if_pos hneg]
  refine ⟨hstep, ?_, ?_, ?_⟩
  · intro rounds hall
    induction rounds with
    | nil => rfl
    | cons r rest ih =>
      rw [hstep r rest (hall r (List.mem_cons_self r rest))]
      exact ih (fun x hx => hall x (List.mem_cons_of_mem r hx))
  · intro rounds fd path saved h
    induction rounds with
    | nil => simp [tty_open] at h
    | cons r rest ih =>
      cases hf : find_qdl_tty r.scan PATH_MAX with
      | error e => rw [tty_open_cons_err r rest e hf] at h; simp at h
      | ok p =>
        rw [tty_open_cons_ok r rest p hf] at h
        by_cases h1 : p.1 < 0
        · rw [if_pos h1] at h
          obtain ⟨r', hr', hw⟩ := ih h
          exact ⟨r', List.mem_cons_of_mem r hr', hw⟩
        · exact ⟨r, List.mem_cons_self r rest, p, hf, Int.not_lt.mp h1⟩
  · intro r rest h
    simp [tty_open, find_qdl_tty, h]

theorem claim_C8_witness :
    tty_open [⟨⟨true, true, []⟩, 0, true, ⟨0, 0, 0, 0⟩, true⟩] =
      ((tty_open []).1,
        Event.scanDir :: Event.printNotice :: Event.sleepSec 1 :: (tty_open []).2) :=
  claim_C8.1 ⟨⟨true, true, []⟩, 0, true, ⟨0, 0, 0, 0⟩, true⟩ []
    ⟨(-ENOENT, none), rfl, by decide⟩

/-- C10: the transport-acquisition function never hands back a negative
descriptor — it exits the process or returns a valid one — so `main`'s
negative-descriptor error branch after `tty_open` is unreachable: `main`
behaves identically with that branch deleted. -/
theorem claim_C10 :
    (∀ rounds fd path saved, (tty_open rounds).1 = TtyRes.acquired fd path saved →
      0 ≤ fd) ∧
    (∀ env : MainEnv, main_run env = main_run_noguard env) := by
  refine ⟨tty_open_acquired_nonneg, ?_⟩
  · intro env
    cases hl : load_files env.args with
    | mk res tr =>
      cases res with
      | error e => simp [main_run, main_run_noguard, hl]
      | ok u =>
        cases ht : tty_open env.rounds with
        | mk tres tr2 =>
          cases tres with
          | exited e => simp [main_run, main_run_noguard, hl, ht]
          | waiting => simp [main_run, main_run_noguard, hl, ht]
          | acquired fd path saved =>
            have hnn : 0 ≤ fd :=
              tty_open_acquired_nonneg env.rounds fd path saved (by rw [ht])
            simp only [main_run, main_run_noguard, hl, ht]
            rw [if_neg (show ¬ fd < 0 by omega)]

theorem claim_C10_witness :
    (0 : Int) ≤ 3 ∧
      main_run ⟨"prog.mbn", [], [], 0, 0, true⟩ =
        main_run_noguard ⟨"prog.mbn", [], [], 0, 0, true⟩ :=
  ⟨claim_C10.1
      [⟨⟨true, true, [⟨"ttyUSB0", true, .bytes "05c6\n".data, .bytes "9008\n".data⟩]⟩,
        3, true, ⟨0, 0, 0, 0⟩, true⟩] 3 (snprintfStr ("/dev/" ++ "ttyUSB0") PATH_MAX)
      ⟨0, 0, 0, 0⟩ (by decide),
    claim_C10.2 ⟨"prog.mbn", [], [], 0, 0, true⟩⟩

/-! ## Orchestration lemmas -/

/-- Unfolding of `main` after a successful load phase and a successful
acquisition: `sahara_run`, `firehose_run` only on its success, then the
restoring `tcsetattr` (warn on failure), `close`, `return 0`. -/
theorem main_run_acquired (env : MainEnv) (tr tr2 : List Event) (fd : Int)
    (path : String) (saved : Termios)
    (hl : load_files env.args = (.ok (), tr))
    (ht : tty_open env.rounds = (.acquired fd path saved, tr2)) :
    main_run env =
      (.returned 0,
        tr ++ tr2 ++
          (if env.sahara_ret < 0 then [Event.sahara env.sahara_ret]
           else [Event.sahara env.sahara_ret, Event.firehose env.firehose_ret]) ++
          (if env.restore_tcsetattr_ok then [Event.restoreTios saved true]
           else [Event.restoreTios saved false,
                 Event.warnMsg "unable to restore tios of ttyUSB1"]) ++
          [Event.closeFd fd]) := by
  have hnn : 0 ≤ fd := tty_open_acquired_nonneg env.rounds fd path saved (by rw [ht])
  simp only [main_run, hl, ht]
  rw [if_neg (show ¬ fd < 0 by omega)]

theorem load_no_restore (args : List FileArg) :
    (load_files args).2.countP isRestore = 0 :=
  countP_eq_zero_of_all (load_files_loadPhase args)
    (by intro e he; cases e <;> simp_all [isLoadPhase, isRestore])

theorem load_no_close (args : List FileArg) :
    (load_files args).2.countP isClose = 0 :=
  countP_eq_zero_of_all (load_files_loadPhase args)
    (by intro e he; cases e <;> simp_all [isLoadPhase, isClose])

theorem load_no_scanDir (args : List FileArg) :
    (load_files args).2.countP isScanDir = 0 :=
  countP_eq_zero_of_all (load_files_loadPhase args)
    (by intro e he; cases e <;> simp_all [isLoadPhase, isScanDir])

theorem load_no_openDev (args : List FileArg) :
    (load_files args).2.countP isOpenDev = 0 :=
  countP_eq_zero_of_all (load_files_loadPhase args)
    (by intro e he; cases e <;> simp_all [isLoadPhase, isOpenDev])

theorem load_no_firehose (args : List FileArg) :
    (load_files args).2.countP isFirehose = 0 :=
  countP_eq_zero_of_all (load_files_loadPhase args)
    (by intro e he; cases e <;> simp_all [isLoadPhase, isFirehose])

theorem tty_no_restore (rounds : List RoundEnv) :
    (tty_open rounds).2.countP isRestore = 0 :=
  countP_eq_zero_of_all (tty_open_ttyPhase rounds)
    (by intro e he; cases e <;> simp_all [isTtyPhase, isRestore])

theorem tty_no_close (rounds : List RoundEnv) :
    (tty_open rounds).2.countP isClose = 0 :=
  countP_eq_zero_of_all (tty_open_ttyPhase rounds)
    (by intro e he; cases e <;> simp_all [isTtyPhase, isClose])

theorem tty_no_firehose (rounds : List RoundEnv) :
    (tty_open rounds).2.countP isFirehose = 0 :=
  countP_eq_zero_of_all (tty_open_ttyPhase rounds)
    (by intro e he; cases e <;> simp_all [isTtyPhase, isFirehose])

/-- C1: whenever every descriptor file classifies and loads successfully and
the transport is acquired, the process exits with status 0 — for every
handshake and command-engine outcome, including negative ones. -/
theorem claim_C1 (env : MainEnv) (fd : Int) (path : String) (saved : Termios)
    (hload : (load_files env.args).1 = .ok ())
    (hacq : (tty_open env.rounds).1 = TtyRes.acquired fd path saved) :
    (main_run env).1 = .returned 0 := by
  cases hl : load_files env.args with
  | mk res tr =>
    cases ht : tty_open env.rounds with
    | mk tres tr2 =>
      rw [hl] at hload
      rw [ht] at hacq
      have hres : res = .ok () := hload
      have htres : tres = TtyRes.acquired fd path saved := hacq
      subst hres htres
      rw [main_run_acquired env tr tr2 fd path saved hl ht]

theorem claim_C1_witness :
    (main_run ⟨"prog.mbn", [],
        [⟨⟨true, true, [⟨"ttyUSB0", true, .bytes "05c6\n".data, .bytes "9008\n".data⟩]⟩,
          3, true, ⟨0, 0, 0, 0⟩, true⟩], -1, -1, true⟩).1 = .returned 0 :=
  claim_C1 _ 3 (snprintfStr ("/dev/" ++ "ttyUSB0") PATH_MAX) ⟨0, 0, 0, 0⟩ rfl (by decide)

/-- C2: on every terminal path of a run whose acquisition succeeded, the
saved pre-acquisition termios is re-applied and the handle closed exactly
once, the restore carries exactly the snapshot taken at acquisition, a
failed restore only adds a warning and the exit outcome stays `return 0`;
on runs where acquisition never happened, no restore and no close occur. -/
theorem claim_C2 (env : MainEnv) :
    (∀ fd path saved,
      (load_files env.args).1 = .ok () →
      (tty_open env.rounds).1 = TtyRes.acquired fd path saved →
      (main_run env).2.countP isRestore = 1 ∧
      Event.restoreTios saved env.restore_tcsetattr_ok ∈ (main_run env).2 ∧
      (main_run env).2.countP isClose = 1 ∧
      (main_run env).1 = .returned 0 ∧
      (env.restore_tcsetattr_ok = false →
        Event.warnMsg "unable to restore tios of ttyUSB1" ∈ (main_run env).2)) ∧
    (¬ ((load_files env.args).1 = .ok () ∧
        ∃ fd path saved, (tty_open env.rounds).1 = TtyRes.acquired fd path saved) →
      (main_run env).2.countP isRestore = 0 ∧ (main_run env).2.countP isClose = 0) := by
  constructor
  · intro fd path saved hload hacq
    cases hl : load_files env.args with
    | mk res tr =>
      cases ht : tty_open env.rounds with
      | mk tres tr2 =>
        rw [hl] at hload
        rw [ht] at hacq
        have hres : res = .ok () := hload
        have htres : tres = TtyRes.acquired fd path saved := hacq
        subst hres htres
        rw [main_run_acquired env tr tr2 fd path saved hl ht]
        have h1 : tr.countP isRestore = 0 := by
          have := load_no_restore env.args; rwa [hl] at this
        have h2 : tr2.countP isRestore = 0 := by
          have := tty_no_restore env.rounds; rwa [ht] at this
        have h3 : tr.countP isClose = 0 := by
          have := load_no_close env.args; rwa [hl] at this
        have h4 : tr2.countP isClose = 0 := by
          have := tty_no_close env.rounds; rwa [ht] at this
        split_ifs with hs hro hro <;>
          simp [List.countP_append, List.countP_cons, isRestore, isClose,
            h1, h2, h3, h4, hro]
  · intro hno
    cases hl : load_files env.args with
    | mk res tr =>
      cases res with
      | error e =>
        have h1 : tr.countP isRestore = 0 := by
          have := load_no_restore env.args; rwa [hl] at this
        have h3 : tr.countP isClose = 0 := by
          have := load_no_close env.args; rwa [hl] at this
        simp [main_run, hl, h1, h3]
      | ok u =>
        cases ht : tty_open env.rounds with
        | mk tres tr2 =>
          have h1 : tr.countP isRestore = 0 := by
            have := load_no_restore env.args; rwa [hl] at this
          have h2 : tr2.countP isRestore = 0 := by
            have := tty_no_restore env.rounds; rwa [ht] at this
          have h3 : tr.countP isClose = 0 := by
            have := load_no_close env.args; rwa [hl] at this
          have h4 : tr2.countP isClose = 0 := by
            have := tty_no_close env.rounds; rwa [ht] at this
          cases tres with
          | exited e => simp [main_run, hl, ht, List.countP_append, h1, h2, h3, h4]
          | waiting => simp [main_run, hl, ht, List.countP_append, h1, h2, h3, h4]
          | acquired fd path saved =>
            exact absurd ⟨by rw [hl], fd, path, saved, by rw [ht]⟩ hno

theorem claim_C2_witness :
    (main_run ⟨"prog.mbn", [],
        [⟨⟨true, true, [⟨"ttyUSB0", true, .bytes "05c6\n".data, .bytes "9008\n".data⟩]⟩,
          3, true, ⟨1, 2, 3, 4⟩, true⟩], -1, 0, false⟩).2.countP isRestore = 1 ∧
    Event.restoreTios ⟨1, 2, 3, 4⟩ false ∈
      (main_run ⟨"prog.mbn", [],
        [⟨⟨true, true, [⟨"ttyUSB0", true, .bytes "05c6\n".data, .bytes "9008\n".data⟩]⟩,
          3, true, ⟨1, 2, 3, 4⟩, true⟩], -1, 0, false⟩).2 ∧
    (main_run ⟨"prog.mbn", [],
        [⟨⟨true, true, [⟨"ttyUSB0", true, .bytes "05c6\n".data, .bytes "9008\n".data⟩]⟩,
          3, true, ⟨1, 2, 3, 4⟩, true⟩], -1, 0, false⟩).2.countP isClose = 1 ∧
    (main_run ⟨"prog.mbn", [],
        [⟨⟨true, true, [⟨"ttyUSB0", true, .bytes "05c6\n".data, .bytes "9008\n".data⟩]⟩,
          3, true, ⟨1, 2, 3, 4⟩, true⟩], -1, 0, false⟩).1 = .returned 0 ∧
    (false = false →
      Event.warnMsg "unable to restore tios of ttyUSB1" ∈
        (main_run ⟨"prog.mbn", [],
          [⟨⟨true, true, [⟨"ttyUSB0", true, .bytes "05c6\n".data, .bytes "9008\n".data⟩]⟩,
            3, true, ⟨1, 2, 3, 4⟩, true⟩], -1, 0, false⟩).2) :=
  (claim_C2 ⟨"prog.mbn", [],
      [⟨⟨true, true, [⟨"ttyUSB0", true, .bytes "05c6\n".data, .bytes "9008\n".data⟩]⟩,
        3, true, ⟨1, 2, 3, 4⟩, true⟩], -1, 0, false⟩).1
    3 (snprintfStr ("/dev/" ++ "ttyUSB0") PATH_MAX) ⟨1, 2, 3, 4⟩ rfl (by decide)

/-- C7: if the transport was acquired and the handshake engine reports
failure, the command engine is never invoked, yet the restoration still runs
exactly once before the process exits normally. -/
theorem claim_C7 (env : MainEnv) (fd : Int) (path : String) (saved : Termios)
    (hload : (load_files env.args).1 = .ok ())
    (hacq : (tty_open env.rounds).1 = TtyRes.acquired fd path saved)
    (hsah : env.sahara_ret < 0) :
    (main_run env).2.countP isFirehose = 0 ∧
    (main_run env).2.countP isRestore = 1 ∧
    (main_run env).1 = .returned 0 := by
  cases hl : load_files env.args with
  | mk res tr =>
    cases ht : tty_open env.rounds with
    | mk tres tr2 =>
      rw [hl] at hload
      rw [ht] at hacq
      have hres : res = .ok () := hload
      have htres : tres = TtyRes.acquired fd path saved := hacq
      subst hres htres
      rw [main_run_acquired env tr tr2 fd path saved hl ht]
      have h1 : tr.countP isFirehose = 0 := by
        have := load_no_firehose env.args; rwa [hl] at this
      have h2 : tr2.countP isFirehose = 0 := by
        have := tty_no_firehose env.rounds; rwa [ht] at this
      have h3 : tr.countP isRestore = 0 := by
        have := load_no_restore env.args; rwa [hl] at this
      have h4 : tr2.countP isRestore = 0 := by
        have := tty_no_restore env.rounds; rwa [ht] at this
      rw [if_pos hsah]
      split_ifs with hro <;>
        simp [List.countP_append, List.countP_cons, isFirehose, isRestore,
          h1, h2, h3, h4]

theorem claim_C7_witness :
    (main_run ⟨"prog.mbn", [],
        [⟨⟨true, true, [⟨"ttyUSB0", true, .bytes "05c6\n".data, .bytes "9008\n".data⟩]⟩,
          3, true, ⟨0, 0, 0, 0⟩, true⟩], -1, 0, true⟩).2.countP isFirehose = 0 ∧
    (main_run ⟨"prog.mbn", [],
        [⟨⟨true, true, [⟨"ttyUSB0", true, .bytes "05c6\n".data, .bytes "9008\n".data⟩]⟩,
          3, true, ⟨0, 0, 0, 0⟩, true⟩], -1, 0, true⟩).2.countP isRestore = 1 ∧
    (main_run ⟨"prog.mbn", [],
        [⟨⟨true, true, [⟨"ttyUSB0", true, .bytes "05c6\n".data, .bytes "9008\n".data⟩]⟩,
          3, true, ⟨0, 0, 0, 0⟩, true⟩], -1, 0, true⟩).1 = .returned 0 :=
  claim_C7 ⟨"prog.mbn", [],
      [⟨⟨true, true, [⟨"ttyUSB0", true, .bytes "05c6\n".data, .bytes "9008\n".data⟩]⟩,
        3, true, ⟨0, 0, 0, 0⟩, true⟩], -1, 0, true⟩
    3 (snprintfStr ("/dev/" ++ "ttyUSB0") PATH_MAX) ⟨0, 0, 0, 0⟩ rfl (by decide) (by decide)

theorem load_files_cons_patch_fail (f : FileArg) (rest : List FileArg)
    (hdet : (detect_type f.name f.doc).1 = QDL_FILE_PATCH)
    (hret : f.patch_load_ret < 0) :
    load_files (f :: rest) =
      (.error ⟨1, "patch_load " ++ f.name ++ " failed"⟩,
        (detect_type f.name f.doc).2 ++ [Event.classify f.name QDL_FILE_PATCH] ++
          [Event.patchLoad f.name f.patch_load_ret]) := by
  simp only [load_files, hdet]
  norm_num [QDL_FILE_UNKNOWN, QDL_FILE_PATCH, QDL_FILE_PROGRAM, QDL_FILE_CONTENTS, hret]

theorem load_files_cons_program_fail (f : FileArg) (rest : List FileArg)
    (hdet : (detect_type f.name f.doc).1 = QDL_FILE_PROGRAM)
    (hret : f.program_load_ret < 0) :
    load_files (f :: rest) =
      (.error ⟨1, "program_load " ++ f.name ++ " failed"⟩,
        (detect_type f.name f.doc).2 ++ [Event.classify f.name QDL_FILE_PROGRAM] ++
          [Event.programLoad f.name f.program_load_ret]) := by
  simp only [load_files, hdet]
  norm_num [QDL_FILE_UNKNOWN, QDL_FILE_PATCH, QDL_FILE_PROGRAM, QDL_FILE_CONTENTS, hret]

/-- When a prefix of the argument list fully loads, the loop's behaviour on
the whole list is that prefix's events followed by the loop on the rest. -/
theorem load_files_append_ok (pre rest : List FileArg)
    (h : (load_files pre).1 = .ok ()) :
    load_files (pre ++ rest) =
      ((load_files rest).1, (load_files pre).2 ++ (load_files rest).2) := by
  induction pre with
  | nil => simp [load_files]
  | cons g p ih =>
    simp only [load_files, List.cons_append, List.append_eq] at h ⊢
    split_ifs at h ⊢
    · rw [ih h]
      simp [List.append_assoc]
    · rw [ih h]
      simp [List.append_assoc]

/-- A failing descriptor file aborts the loop with exit code 1, and the
arguments after it are irrelevant: they are never classified or loaded. -/
theorem load_files_fail_cons (f : FileArg) (rest : List FileArg)
    (hf : fileFails f) :
    load_files (f :: rest) = load_files [f] ∧
    ∃ msg, (load_files (f :: rest)).1 = Except.error ⟨1, msg⟩ := by
  rcases hf with h | h | ⟨h, hr⟩ | ⟨h, hr⟩
  · have e1 := load_files_cons_unknown f rest (Or.inl h)
    have e2 := load_files_cons_unknown f [] (Or.inl h)
    exact ⟨e1.trans e2.symm,
      "failed to detect file type of " ++ f.name ++ "\n", by rw [e1]⟩
  · have e1 := load_files_cons_unknown f rest (Or.inr h)
    have e2 := load_files_cons_unknown f [] (Or.inr h)
    exact ⟨e1.trans e2.symm,
      "failed to detect file type of " ++ f.name ++ "\n", by rw [e1]⟩
  · have e1 := load_files_cons_patch_fail f rest h hr
    have e2 := load_files_cons_patch_fail f [] h hr
    exact ⟨e1.trans e2.symm, "patch_load " ++ f.name ++ " failed", by rw [e1]⟩
  · have e1 := load_files_cons_program_fail f rest h hr
    have e2 := load_files_cons_program_fail f [] h hr
    exact ⟨e1.trans e2.symm, "program_load " ++ f.name ++ " failed", by rw [e1]⟩

instance (f : FileArg) : Decidable (fileFails f) := by
  unfold fileFails
  infer_instance

/-- C6: when a descriptor file fails to classify or load after a prefix that
succeeded, the run exits with a non-zero status, no device enumeration and no
device-node open ever occur, and the run is identical to one in which the
arguments after the failing file are absent — they are never classified or
loaded. -/
theorem claim_C6 (pre post : List FileArg) (f : FileArg) (prog : String)
    (rounds : List RoundEnv) (sr fr : Int) (rok : Bool)
    (hpre : (load_files pre).1 = .ok ())
    (hf : fileFails f) :
    (∃ msg, (main_run ⟨prog, pre ++ f :: post, rounds, sr, fr, rok⟩).1 =
      .exited 1 msg) ∧
    main_run ⟨prog, pre ++ f :: post, rounds, sr, fr, rok⟩ =
      main_run ⟨prog, pre ++ [f], rounds, sr, fr, rok⟩ ∧
    (main_run ⟨prog, pre ++ f :: post, rounds, sr, fr, rok⟩).2.countP isScanDir = 0 ∧
    (main_run ⟨prog, pre ++ f :: post, rounds, sr, fr, rok⟩).2.countP isOpenDev = 0 := by
  obtain ⟨hindep, msg, herr⟩ := load_files_fail_cons f post hf
  have hA : load_files (pre ++ f :: post) =
      (Except.error ⟨1, msg⟩, (load_files pre).2 ++ (load_files (f :: post)).2) := by
    rw [load_files_append_ok pre (f :: post) hpre, herr]
  have hAB : load_files (pre ++ f :: post) = load_files (pre ++ [f]) := by
    rw [load_files_append_ok pre (f :: post) hpre,
      load_files_append_ok pre [f] hpre, hindep]
  refine ⟨⟨msg, ?_⟩, ?_, ?_, ?_⟩
  · simp [main_run, hA]
  · simp only [main_run, hAB]
  · have hz1 := load_no_scanDir pre
    have hz2 := load_no_scanDir (f :: post)
    simp [main_run, hA, List.countP_append, hz1, hz2]
  · have hz1 := load_no_openDev pre
    have hz2 := load_no_openDev (f :: post)
    simp [main_run, hA, List.countP_append, hz1, hz2]

theorem claim_C6_witness :
    ∃ msg, (main_run ⟨"prog.mbn",
        [⟨"bad.xml", some "weird", 0, 0⟩, ⟨"good.xml", some "data", 0, 0⟩],
        [], 0, 0, true⟩).1 = .exited 1 msg :=
  (claim_C6 [] [⟨"good.xml", some "data", 0, 0⟩] ⟨"bad.xml", some "weird", 0, 0⟩
    "prog.mbn" [] 0 0 true rfl (by decide)).1

end Qdl
